import Mathlib

/-
Verification of the cache-fronted GitHub status fetch, its configuration
loading and provider selection, the health indicator, and the telemetry
helpers of the nestjs-rr7 repository.

The embedding is shallow: each TypeScript function relevant to the claims is
translated into an executable Lean definition; promise-based control flow is
modelled by explicit `Except` results and explicit state passing; wall-clock
time is a `Nat` counted in milliseconds.
-/

namespace NestjsRr7

/-! ## Data model -/

/-- Model of `GitHubStatusSummary = Readonly<Record<string, unknown>>`
(github-status.provider.ts): an opaque JSON object, modelled as an
association list from string keys to string-rendered values. -/
abbrev GitHubStatusSummary := List (String × String)

/-- Errors surfaced by the modelled subsystem.  `fetchFailed` carries the
message of the upstream HTTP failure (non-2xx, network error, or rxjs
timeout) that `getSummary` propagates unchanged; `unknownProviderKind`
carries the message of the `Error` thrown by the module factory. -/
inductive GsError where
  | fetchFailed (msg : String)
  | unknownProviderKind (msg : String)
  deriving DecidableEq, Repr

/-- Textual description of an error, modelling JavaScript `Error.message`
as read by `GitHubStatusIndicator.isHealthy` (`err.message`). -/
def GsError.message : GsError → String
  | .fetchFailed m => m
  | .unknownProviderKind m => m

/-! ## Cache collaborator (cache-manager, external)

The core performs only `get`/`set`-with-TTL on the single key
`github-status:summary`, so the cache state is the entry under that key:
the stored value together with its absolute expiry time in milliseconds.
The collaborator's contract (spec §6): entries auto-expire after the TTL;
TTL granularity is seconds. -/

/-- Cache state restricted to the single key `github-status:summary`:
`none` when absent or never written, `some (v, expiresAt)` when an entry
holding `v` expires at absolute time `expiresAt` (ms). -/
structure CacheState where
  entry : Option (GitHubStatusSummary × Nat)
  deriving DecidableEq, Repr

/-- The empty cache (no entry under the status key). -/
def CacheState.empty : CacheState := ⟨none⟩

/-- Model of `cacheManager.get` at absolute time `now` (ms): returns the
stored value when present and not yet expired, otherwise `none`. -/
def cacheGet (c : CacheState) (now : Nat) : Option GitHubStatusSummary :=
  match c.entry with
  | none => none
  | some (v, expiresAt) => if now < expiresAt then some v else none

/-- Model of `cacheManager.set key v ttlSeconds` at absolute time `now`
(ms): replaces the entry under the key with `v`, expiring
`ttlSeconds * 1000` ms later. -/
def cacheSet (now : Nat) (v : GitHubStatusSummary) (ttlSeconds : Nat) :
    CacheState :=
  ⟨some (v, now + ttlSeconds * 1000)⟩

/-! ## DefaultGitHubStatusProvider.getSummary -/

/-- Outcome of the upstream HTTP GET issued via
`firstValueFrom(this.http.get(url).pipe(timeout(timeoutMs)))`:
either a 2xx response carrying a body, or a failure (non-2xx response,
network error, or rxjs `TimeoutError` when the timeout elapses) carrying
the thrown error's message. -/
inductive FetchOutcome where
  | success (body : GitHubStatusSummary)
  | failure (msg : String)
  deriving DecidableEq, Repr

/-- The runtime configuration fields `getSummary` reads from `appConfig`.
Validation (`@IsInt`, `@Min(0)`) guarantees the numeric fields are
non-negative integers, hence `Nat`. -/
structure AppConfigModel where
  githubStatusUrl : String
  githubStatusCacheTtlMs : Nat
  githubStatusTimeoutMs : Nat
  deriving DecidableEq, Repr

/-- Model of `Math.ceil(ttlMs / 1000)` for a non-negative integer `ttlMs`
(github-status.provider.default.ts line 57). -/
def cacheTtlSeconds (ttlMs : Nat) : Nat := (ttlMs + 999) / 1000

deriving instance DecidableEq for Except

/-- Result of one `getSummary()` call: the settled promise, the cache state
after the call, and how many upstream HTTP calls were issued (0 or 1). -/
structure GetSummaryResult where
  result : Except GsError GitHubStatusSummary
  cache : CacheState
  upstreamCalls : Nat
  deriving DecidableEq, Repr

/-- Model of `DefaultGitHubStatusProvider.getSummary` at absolute time
`now` (ms).  `upstream` is the outcome the upstream HTTP GET would have if
issued; it is consulted only on a cache miss.  Mirrors the source: look up
the cache under the fixed key; on a hit return the cached value; on a miss
await the HTTP GET, propagate its error without writing the cache, or on
success store the body with TTL `Math.ceil(cacheTtlMs / 1000)` seconds and
return it. -/
def getSummary (cfg : AppConfigModel) (cache : CacheState) (now : Nat)
    (upstream : FetchOutcome) : GetSummaryResult :=
  match cacheGet cache now with
  | some cachedSummary => ⟨.ok cachedSummary, cache, 0⟩
  | none =>
    match upstream with
    | .failure msg => ⟨.error (.fetchFailed msg), cache, 1⟩
    | .success body =>
        ⟨.ok body,
         cacheSet now body (cacheTtlSeconds cfg.githubStatusCacheTtlMs), 1⟩

/-! ## Configuration loading (github.config.ts, app.config.ts)

`validateConfigSlice(GitHubConfig, env)` runs `plainToInstance` with
`exposeDefaultValues: true` — a missing environment variable yields the
field's declared default — then `validateSync`, throwing an `Error` whose
message joins the per-field constraint messages when any constraint
fails. -/

/-- The environment variables inspected by the `GitHubConfig` slice, each
present (`some raw`) or absent (`none`). -/
structure GitHubEnv where
  GITHUB_STATUS_URL : Option String
  GITHUB_STATUS_CACHE_TTL_MS : Option String
  GITHUB_STATUS_PROVIDER_TYPE : Option String
  GITHUB_STATUS_TIMEOUT_MS : Option String
  deriving DecidableEq, Repr

/-- An environment in which every GitHub variable is absent. -/
def GitHubEnv.allAbsent : GitHubEnv := ⟨none, none, none, none⟩

/-- The validated `GitHubConfig` instance (github.config.ts).  The numeric
fields are `Int` as produced by `toNumber`; the `@Min(0)` constraint has
already held when a value of this type is returned. -/
structure GitHubConfig where
  githubStatusUrl : String
  githubStatusCacheTtlMs : Int
  githubStatusProviderType : String
  githubStatusTimeoutMs : Int
  deriving DecidableEq, Repr

/-- Declared default of `GitHubConfig.githubStatusUrl`. -/
def defaultGithubStatusUrl : String :=
  "https://www.githubstatus.com/api/v2/summary.json"

/-- Models class-validator's `@IsUrl({require_tld: true, require_protocol:
true})` (external library) on the inputs this configuration uses: the
string must carry an explicit http(s) scheme and its host part must
contain a dot-separated top-level domain. -/
def isUrlValid (s : String) : Bool :=
  let cs := s.toList
  let rest? : Option (List Char) :=
    if List.isPrefixOf ("https://".toList) cs then some (cs.drop 8)
    else if List.isPrefixOf ("http://".toList) cs then some (cs.drop 7)
    else none
  match rest? with
  | none => false
  | some rest =>
    let host := rest.takeWhile (fun c => c ≠ '/')
    !host.isEmpty && host.contains '.' &&
      host.headD '.' ≠ '.' && host.getLastD '.' ≠ '.'

/-- Models `toNumber` (`Number(value)`) composed with the `@IsInt` check:
for the integer-formatted strings the claims exercise, `Number` yields the
integer; any string `Number` maps to a non-integer (including `NaN`) fails
`@IsInt`, which this model folds into a `none`. -/
def parseIntEnv (s : String) : Option Int := s.toInt?

/-- The provider kinds accepted by `@IsIn(['mock', 'default'])`. -/
def allowedProviderTypes : List String := ["mock", "default"]

/-- Model of `validateConfigSlice(GitHubConfig, env)`: resolve each field
from the environment or its declared default, then check the declared
constraints, throwing (here: `Except.error`) a message built from the
failing constraint messages.  Constraint messages are the ones declared in
github.config.ts; like the source, a successful validation returns the
populated instance. -/
def validateGitHubConfig (env : GitHubEnv) : Except String GitHubConfig :=
  let url := env.GITHUB_STATUS_URL.getD defaultGithubStatusUrl
  let ttl? : Option Int :=
    match env.GITHUB_STATUS_CACHE_TTL_MS with
    | none => some 60000
    | some raw => parseIntEnv raw
  let providerType := env.GITHUB_STATUS_PROVIDER_TYPE.getD "mock"
  let timeout? : Option Int :=
    match env.GITHUB_STATUS_TIMEOUT_MS with
    | none => some 2000
    | some raw => parseIntEnv raw
  if !isUrlValid url then
    .error "GITHUB_STATUS_URL must be a valid absolute URL"
  else
    match ttl? with
    | none => .error "GITHUB_STATUS_CACHE_TTL_MS must be an integer"
    | some ttl =>
      if ttl < 0 then .error "GITHUB_STATUS_CACHE_TTL_MS must be >= 0"
      else if !allowedProviderTypes.contains providerType then
        .error "GITHUB_STATUS_PROVIDER_TYPE must be one of: mock, default"
      else
        match timeout? with
        | none => .error "GITHUB_STATUS_TIMEOUT_MS must be an integer"
        | some tmo =>
          if tmo < 0 then .error "GITHUB_STATUS_TIMEOUT_MS must be >= 0"
          else .ok ⟨url, ttl, providerType, tmo⟩

/-! ## Provider selection (GitHubModule.GitHubStatusProviderFactory) -/

/-- The two provider implementations registered in the module: the default
(network-calling) provider and the mock provider. -/
inductive ProviderChoice where
  | defaultProvider
  | mockProvider
  deriving DecidableEq, Repr

/-- Model of the `useFactory` switch on `appConfig.githubStatusProviderType`
(github.module.ts): `default` resolves the network-calling
`DefaultGitHubStatusProvider`, `mock` the `MockGitHubStatusProvider`, and
any other value throws at construction, before any provider exists to
serve a `getSummary()` call. -/
def gitHubStatusProviderFactory (providerType : String) :
    Except GsError ProviderChoice :=
  match providerType with
  | "default" => .ok .defaultProvider
  | "mock" => .ok .mockProvider
  | other =>
      .error (.unknownProviderKind
        ("Unknown githubStatusProviderType: " ++ other))

/-! ## Health indicator (github-status.health.ts) -/

/-- Status carried by a terminus `HealthIndicatorResult`. -/
inductive HealthStatus where
  | up
  | down
  deriving DecidableEq, Repr

/-- The payload `isHealthy` attaches to a `down` result: the fixed message
plus the failure's textual description. -/
structure DownPayload where
  message : String
  error : String
  deriving DecidableEq, Repr

/-- Model of a terminus `HealthIndicatorResult` produced via
`healthIndicatorService.check(key)` followed by `.up()` or
`.down(payload)`. -/
structure HealthIndicatorResult where
  key : String
  status : HealthStatus
  payload : Option DownPayload
  deriving DecidableEq, Repr

/-- Model of `GitHubStatusIndicator.isHealthy(key)`: await
`githubStatusProvider.getSummary()` (its settled outcome is
`summaryResult`); on resolution return `indicator.up()`, on rejection
return `indicator.down` with the fixed message and the error's message. -/
def isHealthy (key : String)
    (summaryResult : Except GsError GitHubStatusSummary) :
    HealthIndicatorResult :=
  match summaryResult with
  | .ok _ => ⟨key, .up, none⟩
  | .error err =>
      ⟨key, .down, some ⟨"GitHub status check failed", err.message⟩⟩

/-! ## Telemetry (telemetry.provider.ts)

`withSpan` wraps a callback in an OpenTelemetry span; the observable
span-side effects the claims concern are how often `span.end()` runs and
which exceptions get recorded.  The callback's behaviour is its settled
outcome: a returned/resolved value or a thrown/rejected error. -/

/-- A thrown JavaScript value as `recordSpanException` distinguishes it:
its name, its message, and whether it is a fetch `Response` (React Router
throws `Response` objects as control flow; those are not recorded). -/
structure JsThrown where
  name : String
  message : String
  isResponse : Bool
  deriving DecidableEq, Repr

/-- Observable state of the span created by `tracer.startSpan`: how many
times `span.end()` has run, the names of exceptions recorded via
`span.recordException`, and whether `span.setStatus` marked it as error. -/
structure SpanRecord where
  endCount : Nat
  recordedExceptions : List String
  statusIsError : Bool
  deriving DecidableEq, Repr

/-- The freshly started span. -/
def SpanRecord.started : SpanRecord := ⟨0, [], false⟩

/-- Model of `span.end()`. -/
def SpanRecord.endSpan (s : SpanRecord) : SpanRecord :=
  { s with endCount := s.endCount + 1 }

/-- Model of `TelemetryProvider.recordSpanException`: a thrown `Response`
is ignored; any other thrown value is recorded on the span and the span
status set to error. -/
def recordSpanException (err : JsThrown) (s : SpanRecord) : SpanRecord :=
  if err.isResponse then s
  else
    { s with
      recordedExceptions := s.recordedExceptions ++ [err.name],
      statusIsError := true }

/-- Model of the synchronous path of `TelemetryProvider.withSpan` (the
callback's result is not a `Promise`): run `fn`; if it returns, end the
span and return the value; if it throws, record the exception, end the
span, and rethrow. -/
def withSpanSyncPath {α : Type} (fnOutcome : Except JsThrown α)
    (span : SpanRecord) : Except JsThrown α × SpanRecord :=
  match fnOutcome with
  | .ok v => (.ok v, span.endSpan)
  | .error err => (.error err, (recordSpanException err span).endSpan)

/-- Model of the asynchronous path of `TelemetryProvider.withSpan` (the
callback returned a `Promise` that eventually settles as `fnOutcome`): the
`.then` handler ends the span and passes the value through; the `.catch`
handler records the exception, ends the span, and rethrows. -/
def withSpanAsyncPath {α : Type} (fnOutcome : Except JsThrown α)
    (span : SpanRecord) : Except JsThrown α × SpanRecord :=
  match fnOutcome with
  | .ok v => (.ok v, span.endSpan)
  | .error err => (.error err, (recordSpanException err span).endSpan)

/-- Model of `TelemetryProvider.withSpan`: start a span, run the callback,
and dispatch on whether its result is a `Promise` (`isAsync`).  Returns
the call's settled outcome together with the span's final observable
state. -/
def withSpan {α : Type} (isAsync : Bool) (fnOutcome : Except JsThrown α) :
    Except JsThrown α × SpanRecord :=
  let span := SpanRecord.started
  if isAsync then withSpanAsyncPath fnOutcome span
  else withSpanSyncPath fnOutcome span

/-- The configuration fields `TelemetryProvider.initFromConfig` reads from
a validated `TelemetryConfig` (telemetry.config.ts). -/
structure TelemetryConfigModel where
  telemetryEnabled : Bool
  otelExporterOtlpEndpoint : String
  otelServiceName : String
  otelServiceVersion : String
  otelExportIntervalMs : Int
  deriving DecidableEq, Repr

/-- The process-global telemetry state: `otelSdk` models
`global.__otel_sdk` (the identity of the stored `NodeSDK` instance, as an
allocation number), and `constructedSdks` counts how many `new NodeSDK`
constructions have run, so that "constructs no new SDK" is observable. -/
structure OtelGlobalState where
  otelSdk : Option Nat
  constructedSdks : Nat
  deriving DecidableEq, Repr

/-- Model of `TelemetryProvider.initFromConfig`: when telemetry is
disabled return `undefined` without touching the global; otherwise return
the already-stored SDK when `global.__otel_sdk` is set, and only when it
is unset construct a new `NodeSDK`, store it in the global, and return
it. -/
def initFromConfig (cfg : TelemetryConfigModel) (g : OtelGlobalState) :
    Option Nat × OtelGlobalState :=
  if !cfg.telemetryEnabled then (none, g)
  else
    match g.otelSdk with
    | some sdk => (some sdk, g)
    | none =>
        let sdk := g.constructedSdks
        (some sdk, ⟨some sdk, g.constructedSdks + 1⟩)

/-! ## Sample values used by counterexamples and witnesses -/

/-- A configuration whose cache TTL (1500 ms) is not a whole number of
seconds, exposing the effect of the round-up in
`Math.ceil(githubStatusCacheTtlMs / 1000)`. -/
def c1Config : AppConfigModel := ⟨defaultGithubStatusUrl, 1500, 2000⟩

/-- A sample upstream status body. -/
def sampleBody : GitHubStatusSummary := [("status", "ok")]

/-- A configuration with the default TTL and timeout. -/
def sampleConfig : AppConfigModel := ⟨defaultGithubStatusUrl, 60000, 2000⟩

/-! ## Theorems -/

/-- C1, counterexample: with `cacheTtlMs = 1500` the stored TTL is
`ceil(1500/1000) = 2` seconds, so a `getSummary` call 1800 ms after the
original fetch — more than `cacheTtlMs` later — still returns the cached
value (no upstream call), contradicting the claimed staleness bound. -/
theorem C1_counterexample :
    (getSummary c1Config
      (getSummary c1Config CacheState.empty 0 (.success sampleBody)).cache
      1800 (.failure "unused")).result = .ok sampleBody ∧
    (getSummary c1Config
      (getSummary c1Config CacheState.empty 0 (.success sampleBody)).cache
      1800 (.failure "unused")).upstreamCalls = 0 ∧
    1800 > c1Config.githubStatusCacheTtlMs := by
  decide

/-- C1, amended: whenever a `getSummary` call is served from the cache
entry stored by an earlier successful fetch at time `t0` (it issues no
upstream call), the serving time is strictly below
`t0 + ceil(cacheTtlMs / 1000) * 1000` — the staleness bound is the
configured TTL rounded up to whole seconds, not `cacheTtlMs` itself. -/
theorem getSummary_staleness_rounded_bound (cfg : AppConfigModel)
    (b : GitHubStatusSummary) (t0 t1 : Nat) (out : FetchOutcome)
    (h : (getSummary cfg
      (getSummary cfg CacheState.empty t0 (.success b)).cache
      t1 out).upstreamCalls = 0) :
    t1 < t0 + cacheTtlSeconds cfg.githubStatusCacheTtlMs * 1000 := by
  simp only [getSummary, cacheGet, cacheSet, CacheState.empty] at h
  split at h
  next heq =>
    split at heq
    · omega
    · simp at heq
  next heq =>
    cases out <;> simp at h

/-- C1, witness for the amended theorem at a concrete input. -/
theorem getSummary_staleness_rounded_bound_witness :
    1800 < 0 + cacheTtlSeconds c1Config.githubStatusCacheTtlMs * 1000 :=
  getSummary_staleness_rounded_bound c1Config sampleBody 0 1800
    (.failure "unused") (by decide)

/-- C2: when the cache misses and the upstream HTTP call fails (non-2xx,
network error, or timeout), `getSummary` rejects, surfacing the fetch
failure to its immediate caller. -/
theorem getSummary_rejects_on_fetch_failure (cfg : AppConfigModel)
    (cache : CacheState) (now : Nat) (msg : String)
    (h : cacheGet cache now = none) :
    (getSummary cfg cache now (.failure msg)).result =
      .error (.fetchFailed msg) := by
  simp [getSummary, h]

/-- C2, witness at a concrete input. -/
theorem getSummary_rejects_on_fetch_failure_witness :
    (getSummary sampleConfig CacheState.empty 0
      (.failure "Request failed with status code 500")).result =
      .error (.fetchFailed "Request failed with status code 500") :=
  getSummary_rejects_on_fetch_failure sampleConfig CacheState.empty 0
    "Request failed with status code 500" (by decide)

/-- C6: a `getSummary` call whose upstream fetch would fail performs no
cache write — the cache state after the call equals the cache state
before it, in every starting state. -/
theorem getSummary_failure_leaves_cache_unchanged (cfg : AppConfigModel)
    (cache : CacheState) (now : Nat) (msg : String) :
    (getSummary cfg cache now (.failure msg)).cache = cache := by
  unfold getSummary
  cases h : cacheGet cache now <;> simp

/-- C7: a present, non-expired cache entry is returned immediately with no
upstream call; consequently a successful fetch at `t0` followed by a
second call within `cacheTtlMs` performs exactly one upstream call in
total. -/
theorem getSummary_cache_hit_contract :
    (∀ (cfg : AppConfigModel) (cache : CacheState) (now : Nat)
      (upstream : FetchOutcome) (v : GitHubStatusSummary),
      cacheGet cache now = some v →
      getSummary cfg cache now upstream = ⟨.ok v, cache, 0⟩) ∧
    (∀ (cfg : AppConfigModel) (b : GitHubStatusSummary) (t0 d : Nat)
      (out : FetchOutcome), d < cfg.githubStatusCacheTtlMs →
      (getSummary cfg CacheState.empty t0 (.success b)).upstreamCalls +
        (getSummary cfg
          (getSummary cfg CacheState.empty t0 (.success b)).cache
          (t0 + d) out).upstreamCalls = 1) := by
  constructor
  · intro cfg cache now upstream v h
    simp [getSummary, h]
  · intro cfg b t0 d out h
    have hle : d < cacheTtlSeconds cfg.githubStatusCacheTtlMs * 1000 := by
      unfold cacheTtlSeconds
      omega
    simp only [getSummary, cacheGet, cacheSet, CacheState.empty]
    have : t0 + d < t0 + cacheTtlSeconds cfg.githubStatusCacheTtlMs * 1000 := by
      omega
    simp [this]

/-- C7, witness: a call served from a live cache entry, and a
fetch-then-call-again pair within the TTL issuing one upstream call. -/
theorem getSummary_cache_hit_contract_witness :
    getSummary sampleConfig ⟨some (sampleBody, 5000)⟩ 3000 (.failure "x") =
      ⟨.ok sampleBody, ⟨some (sampleBody, 5000)⟩, 0⟩ ∧
    (getSummary sampleConfig CacheState.empty 0
        (.success sampleBody)).upstreamCalls +
      (getSummary sampleConfig
        (getSummary sampleConfig CacheState.empty 0
          (.success sampleBody)).cache
        (0 + 30000) (.failure "y")).upstreamCalls = 1 :=
  ⟨getSummary_cache_hit_contract.1 sampleConfig ⟨some (sampleBody, 5000)⟩
      3000 (.failure "x") sampleBody (by decide),
   getSummary_cache_hit_contract.2 sampleConfig sampleBody 0 30000
      (.failure "y") (by decide)⟩

/-- C3, counterexample: with every GitHub environment variable absent —
in particular `GITHUB_STATUS_URL` — configuration loading succeeds with
the declared defaults instead of raising a ConfigInvalid error, because
`exposeDefaultValues` substitutes the field's default and the default URL
passes validation. -/
theorem C3_counterexample :
    validateGitHubConfig GitHubEnv.allAbsent =
      .ok ⟨defaultGithubStatusUrl, 60000, "mock", 2000⟩ := by
  decide

/-- C3, amended: when `GITHUB_STATUS_URL` is absent, configuration
loading never fails URL validation (the variable is optional), and any
successfully loaded configuration carries the declared default URL;
ConfigInvalid arises from the URL only when a supplied value fails
validation. -/
theorem validateGitHubConfig_absent_url_uses_default (env : GitHubEnv)
    (h : env.GITHUB_STATUS_URL = none) :
    validateGitHubConfig env ≠
      .error "GITHUB_STATUS_URL must be a valid absolute URL" ∧
    ∀ cfg, validateGitHubConfig env = .ok cfg →
      cfg.githubStatusUrl = defaultGithubStatusUrl := by
  have hurl : isUrlValid defaultGithubStatusUrl = true := by decide
  constructor
  · intro hcontra
    unfold validateGitHubConfig at hcontra
    rw [h] at hcontra
    simp only [Option.getD_none, hurl, Bool.not_true] at hcontra
    repeat' split at hcontra
    all_goals simp_all
  · intro cfg hcfg
    unfold validateGitHubConfig at hcfg
    rw [h] at hcfg
    simp only [Option.getD_none] at hcfg
    repeat' split at hcfg
    all_goals simp_all
    subst hcfg
    rfl

/-- C3, witness for the amended theorem at a concrete environment. -/
theorem validateGitHubConfig_absent_url_uses_default_witness :
    (⟨defaultGithubStatusUrl, 60000, "mock", 2000⟩ :
      GitHubConfig).githubStatusUrl = defaultGithubStatusUrl :=
  (validateGitHubConfig_absent_url_uses_default GitHubEnv.allAbsent
    rfl).2 _ (by decide)

/-- C4, counterexample: the provider kind `real` has no registered
implementation — the factory throws on it and the validation whitelist
does not contain it — so the accepted kinds are not `{real, mock}`. -/
theorem C4_counterexample :
    gitHubStatusProviderFactory "real" =
      .error (.unknownProviderKind
        "Unknown githubStatusProviderType: real") ∧
    allowedProviderTypes.contains "real" = false := by
  decide

/-- C4, amended: the accepted provider kinds are exactly `mock` and
`default`, with default `mock`; selecting `default` resolves the
status-fetch capability to `DefaultGitHubStatusProvider`, the collaborator
that performs actual network calls. -/
theorem providerFactory_accepted_kinds :
    gitHubStatusProviderFactory "default" = .ok .defaultProvider ∧
    gitHubStatusProviderFactory "mock" = .ok .mockProvider ∧
    (∀ t : String, (gitHubStatusProviderFactory t).isOk = true ↔
      t ∈ allowedProviderTypes) ∧
    (∀ (env : GitHubEnv) (cfg : GitHubConfig),
      env.GITHUB_STATUS_PROVIDER_TYPE = none →
      validateGitHubConfig env = .ok cfg →
      cfg.githubStatusProviderType = "mock") := by
  refine ⟨rfl, rfl, ?_, ?_⟩
  · intro t
    unfold gitHubStatusProviderFactory
    split <;> simp_all [allowedProviderTypes, Except.isOk, Except.toBool]
  · intro env cfg h hcfg
    unfold validateGitHubConfig at hcfg
    rw [h] at hcfg
    simp only [Option.getD_none] at hcfg
    repeat' split at hcfg
    all_goals simp_all
    subst hcfg
    rfl

/-- C4, witness discharging the hypotheses of the amended theorem at
concrete inputs. -/
theorem providerFactory_accepted_kinds_witness :
    (gitHubStatusProviderFactory "mock").isOk = true ∧
    (⟨defaultGithubStatusUrl, 60000, "mock", 2000⟩ :
      GitHubConfig).githubStatusProviderType = "mock" :=
  ⟨(providerFactory_accepted_kinds.2.2.1 "mock").mpr (by decide),
   providerFactory_accepted_kinds.2.2.2 GitHubEnv.allAbsent _ rfl
     (by decide)⟩

/-- C5: every provider kind other than the registered `mock` and
`default` makes the factory throw the unknown-kind error during provider
construction, so no provider instance exists and no `getSummary` call can
occur. -/
theorem providerFactory_unknown_kind_errors (t : String)
    (h1 : t ≠ "default") (h2 : t ≠ "mock") :
    gitHubStatusProviderFactory t =
      .error (.unknownProviderKind
        ("Unknown githubStatusProviderType: " ++ t)) := by
  unfold gitHubStatusProviderFactory
  split <;> simp_all

/-- C5, witness at a concrete unrecognized kind. -/
theorem providerFactory_unknown_kind_errors_witness :
    gitHubStatusProviderFactory "legacy" =
      .error (.unknownProviderKind
        ("Unknown githubStatusProviderType: " ++ "legacy")) :=
  providerFactory_unknown_kind_errors "legacy" (by decide) (by decide)

/-- C8: `isHealthy(key)` reports `up` exactly when `getSummary()`
resolves, and on rejection reports `down` with a payload that carries the
failure's textual description (the error's message) in its `error`
field. -/
theorem isHealthy_contract (key : String)
    (r : Except GsError GitHubStatusSummary) :
    ((isHealthy key r).status = .up ↔ r.isOk = true) ∧
    (∀ e, r = .error e →
      isHealthy key r =
        ⟨key, .down, some ⟨"GitHub status check failed", e.message⟩⟩) := by
  cases r <;> simp [isHealthy, Except.isOk, Except.toBool]

/-- C8, witness: a concrete rejection maps to a `down` result embedding
the failure's message, and a concrete resolution maps to `up`. -/
theorem isHealthy_contract_witness :
    isHealthy "github" (.error (.fetchFailed "Timeout has occurred")) =
      ⟨"github", .down,
        some ⟨"GitHub status check failed", "Timeout has occurred"⟩⟩ :=
  (isHealthy_contract "github"
    (.error (.fetchFailed "Timeout has occurred"))).2
    (.fetchFailed "Timeout has occurred") rfl

/-- C9: `withSpan` is transparent to its callback on both the synchronous
and the promise path: a returned/resolved value is passed through
unchanged, a thrown/rejected error is rethrown unchanged, and the created
span is ended exactly once on every path. -/
theorem withSpan_transparent {α : Type} (isAsync : Bool)
    (fnOutcome : Except JsThrown α) :
    (withSpan isAsync fnOutcome).1 = fnOutcome ∧
    (withSpan isAsync fnOutcome).2.endCount = 1 := by
  have hrec : ∀ (e : JsThrown) (s : SpanRecord),
      (recordSpanException e s).endCount = s.endCount := by
    intro e s
    unfold recordSpanException
    split <;> rfl
  cases isAsync <;> cases fnOutcome <;>
    refine ⟨rfl, ?_⟩ <;>
    simp [withSpan, withSpanSyncPath, withSpanAsyncPath,
      SpanRecord.endSpan, SpanRecord.started, hrec]

/-- C10: once a NodeSDK is stored in `global.__otel_sdk`, every later
`initFromConfig` call with telemetry enabled returns that same instance
and constructs no new SDK (the global state, including the construction
count, is unchanged); every call with telemetry disabled returns
`undefined` and creates nothing. -/
theorem initFromConfig_idempotent :
    (∀ (cfg : TelemetryConfigModel) (g : OtelGlobalState) (sdk : Nat),
      cfg.telemetryEnabled = true → g.otelSdk = some sdk →
      initFromConfig cfg g = (some sdk, g)) ∧
    (∀ (cfg : TelemetryConfigModel) (g : OtelGlobalState),
      cfg.telemetryEnabled = false → initFromConfig cfg g = (none, g)) := by
  constructor
  · intro cfg g sdk he hs
    simp [initFromConfig, he, hs]
  · intro cfg g he
    simp [initFromConfig, he]

/-- C10, witness: a second enabled call with a stored SDK returns it
unchanged, and a disabled call returns `undefined` leaving the global
untouched. -/
theorem initFromConfig_idempotent_witness :
    initFromConfig ⟨true, "http://localhost:4318", "nestjs-rr7", "0.0.0",
        60000⟩ ⟨some 0, 1⟩ = (some 0, ⟨some 0, 1⟩) ∧
    initFromConfig ⟨false, "http://localhost:4318", "nestjs-rr7", "0.0.0",
        60000⟩ ⟨none, 0⟩ = (none, ⟨none, 0⟩) :=
  ⟨initFromConfig_idempotent.1 _ _ 0 rfl rfl,
   initFromConfig_idempotent.2 _ _ rfl⟩

end NestjsRr7
